import Mathlib

/-!
Verification of the expense-ledger HTTP core: routing, path parsing,
pagination, account/transaction handler validation and partial-update
merging, embedded shallowly from the Go sources
(handlers/transaction_handler, api/handlers/account_handler.go,
api/netlify/functions/api/main.go, utils/response.go).

Strings are modelled through their character lists; handlers are pure
functions from the decoded request plus the persistence collaborator's
answers to a response together with the ordered list of persistence
calls they issued.
-/

namespace ExpenseLedger

/-! ### Models of the Go standard-library string helpers used by the core -/

/-- Modelled from Go strings.HasPrefix via character lists: does the
second list start with the first? -/
def listStarts : List Char → List Char → Bool
  | [], _ => true
  | _ :: _, [] => false
  | p :: ps, s :: ss => p == s && listStarts ps ss

/-- Go strings.HasPrefix s pre. -/
def goHasPre (s pre : String) : Bool :=
  listStarts pre.data s.data

/-- Go strings.TrimPrefix s pre. -/
def goTrimPre (s pre : String) : String :=
  if goHasPre s pre then ⟨s.data.drop pre.data.length⟩ else s

/-- Go strings.ContainsRune s c (used as strings.Contains with a
one-character separator). -/
def goContainsChar (s : String) (c : Char) : Bool :=
  s.data.contains c

/-- Split off everything before the first occurrence of sep, if any. -/
def splitFirst (sep : Char) : List Char → Option (List Char × List Char)
  | [] => none
  | c :: cs =>
      if c == sep then some ([], cs)
      else
        match splitFirst sep cs with
        | none => none
        | some (a, b) => some (c :: a, b)

/-- Go strings.SplitN on a one-character separator, on character lists:
at most n chunks, the last chunk left unsplit. -/
def splitNChars (sep : Char) : Nat → List Char → List (List Char)
  | 0, _ => []
  | 1, s => [s]
  | n + 2, s =>
      match splitFirst sep s with
      | none => [s]
      | some (a, b) => a :: splitNChars sep (n + 1) b

/-- Go strings.SplitN s sep n with a one-character separator. -/
def goSplitN (s : String) (sep : Char) (n : Nat) : List String :=
  (splitNChars sep n s.data).map String.mk

/-- Is a substring of the second list (Go strings.Contains). -/
def listHasInside (sub l : List Char) : Bool :=
  l.tails.any (fun t => listStarts sub t)

/-- Go strings.Contains s sub. -/
def goContainsStr (s sub : String) : Bool :=
  listHasInside sub.data s.data

/-! ### Model of Go strconv.Atoi (stdlib, outside this repository):
an optional sign followed by at least one decimal digit; anything else
is an error.  Machine-integer overflow is not modelled. -/

def digitVal (c : Char) : Nat := c.toNat - 48

def isDigitChar (c : Char) : Bool := 48 ≤ c.toNat && c.toNat ≤ 57

def digitsToNatAux : Nat → List Char → Option Nat
  | acc, [] => some acc
  | acc, c :: cs =>
      if isDigitChar c then digitsToNatAux (acc * 10 + digitVal c) cs else none

def digitsToNat : List Char → Option Nat
  | [] => none
  | c :: cs => digitsToNatAux 0 (c :: cs)

/-- Modelled from Go strconv.Atoi. -/
def atoi (s : String) : Option Int :=
  match s.data with
  | '+' :: ds => (digitsToNat ds).map (fun n => (n : Int))
  | '-' :: ds => (digitsToNat ds).map (fun n => -(n : Int))
  | ds => (digitsToNat ds).map (fun n => (n : Int))

/-! ### Model of Go time.Parse with the RFC3339 layout (stdlib, outside
this repository): accepts YYYY-MM-DDTHH:MM:SS, an optional fraction of
at least one digit, and a zone of Z or a signed HH:MM offset, with
range checks on every field. -/

inductive UtcOffset where
  | utc
  | plus (h m : Nat)
  | minus (h m : Nat)
  deriving DecidableEq

structure DateTime where
  year : Nat
  month : Nat
  day : Nat
  hour : Nat
  minute : Nat
  second : Nat
  frac : List Char
  offset : UtcOffset
  deriving DecidableEq

/-- Read exactly n decimal digits, accumulating their value. -/
def readDigits : Nat → Nat → List Char → Option (Nat × List Char)
  | 0, acc, l => some (acc, l)
  | _ + 1, _, [] => none
  | n + 1, acc, c :: cs =>
      if isDigitChar c then readDigits n (acc * 10 + digitVal c) cs else none

def expectChar (c : Char) : List Char → Option (List Char)
  | [] => none
  | x :: xs => if x == c then some xs else none

def isLeapYear (y : Nat) : Bool :=
  (y % 4 == 0 && y % 100 != 0) || y % 400 == 0

def daysInMonth (y m : Nat) : Nat :=
  if m == 2 then (if isLeapYear y then 29 else 28)
  else if m == 4 || m == 6 || m == 9 || m == 11 then 30
  else 31

def dateFieldsOk (dt : DateTime) : Bool :=
  decide (1 ≤ dt.month) && decide (dt.month ≤ 12) &&
  decide (1 ≤ dt.day) && decide (dt.day ≤ daysInMonth dt.year dt.month) &&
  decide (dt.hour ≤ 23) && decide (dt.minute ≤ 59) && decide (dt.second ≤ 59) &&
  (match dt.offset with
   | .utc => true
   | .plus h m => decide (h ≤ 23) && decide (m ≤ 59)
   | .minus h m => decide (h ≤ 23) && decide (m ≤ 59))

def readFrac : List Char → Option (List Char × List Char)
  | '.' :: rest =>
      let p := List.span isDigitChar rest
      if p.1 = [] then none else some (p.1, p.2)
  | l => some (([] : List Char), l)

def readHM : List Char → Option (Nat × Nat)
  | rest =>
      match readDigits 2 0 rest with
      | none => none
      | some (h, l) =>
          match expectChar ':' l with
          | none => none
          | some l =>
              match readDigits 2 0 l with
              | none => none
              | some (m, l) => if l = [] then some (h, m) else none

def readOffset : List Char → Option UtcOffset
  | 'Z' :: l => if l = [] then some UtcOffset.utc else none
  | '+' :: rest => (readHM rest).map (fun p => UtcOffset.plus p.1 p.2)
  | '-' :: rest => (readHM rest).map (fun p => UtcOffset.minus p.1 p.2)
  | _ => none

/-- utils.ParseDate: Go time.Parse(time.RFC3339, s), success as Option. -/
def ParseDate (s : String) : Option DateTime := do
  let (y, l) ← readDigits 4 0 s.data
  let l ← expectChar '-' l
  let (mo, l) ← readDigits 2 0 l
  let l ← expectChar '-' l
  let (d, l) ← readDigits 2 0 l
  let l ← expectChar 'T' l
  let (h, l) ← readDigits 2 0 l
  let l ← expectChar ':' l
  let (mi, l) ← readDigits 2 0 l
  let l ← expectChar ':' l
  let (se, l) ← readDigits 2 0 l
  let (fr, l) ← readFrac l
  let off ← readOffset l
  let dt : DateTime := ⟨y, mo, d, h, mi, se, fr, off⟩
  if dateFieldsOk dt then some dt else none

/-! ### Data model (models/account.go, models/transaction.go) -/

/-- models.Account: ID, Name, Type. -/
structure Account where
  id : String
  name : String
  accType : String
  deriving DecidableEq

/-- models.Transaction: ID, AccountID, Amount (float64, modelled as a
rational since the handlers only copy it), Date, Description, Type. -/
structure Transaction where
  id : String
  accountID : String
  amount : Rat
  date : DateTime
  description : String
  txType : String
  deriving DecidableEq

/-- handlers.allowedTransactionTypes (a Go set-map). -/
def allowedTransactionTypes (t : String) : Bool :=
  t == "income" || t == "expense"

/-- handlers.allowedAccountTypes (a Go set-map). -/
def allowedAccountTypes (t : String) : Bool :=
  t == "bank" || t == "cash" || t == "other"

/-! ### Transaction path parsing (handlers.accountIDAndTransactionIDFromPath) -/

/-- handlers.accountIDAndTransactionIDFromPath: accountID and optional
transaction ID from /accounts/id/transactions or
/accounts/id/transactions/txId, or two empty strings on no match. -/
def accountIDAndTransactionIDFromPath (path : String) : String × String :=
  if goHasPre path "/accounts/" then
    let rest := goTrimPre path "/accounts/"
    match goSplitN rest '/' 3 with
    | [a, b] =>
        if a ≠ "" ∧ b = "transactions" then (a, "") else ("", "")
    | [a, b, c] =>
        if a ≠ "" ∧ b = "transactions" then
          (a, if c ≠ "" ∧ ¬ goContainsChar c '/' then c else "")
        else ("", "")
    | _ => ("", "")
  else ("", "")

/-- handlers.accountIDFromPath: the account ID from /accounts/id. -/
def accountIDFromPath (path : String) : String :=
  if goHasPre path "/accounts/" then
    let id := goTrimPre path "/accounts/"
    if id = "" ∨ goContainsChar id '/' then "" else id
  else ""

/-! ### Pagination (utils.ParsePagination).  The two arguments are the
results of Query().Get("page") and Query().Get("pageSize"), which Go
returns as the empty string when the parameter is absent. -/

def defaultPageSize : Int := 20

def maxPageSize : Int := 100

def ParsePagination (pageStr pageSizeStr : String) : Int × Int :=
  let page : Int :=
    if pageStr ≠ "" then
      match atoi pageStr with
      | some v => if 1 ≤ v then v else 1
      | none => 1
    else 1
  let pageSize : Int :=
    if pageSizeStr ≠ "" then
      match atoi pageSizeStr with
      | some v => if 1 ≤ v then v else defaultPageSize
      | none => defaultPageSize
    else defaultPageSize
  let pageSize := if pageSize > maxPageSize then maxPageSize else pageSize
  (page, pageSize)

/-! ### Router (api/netlify/functions/api/main.go) -/

/-- main.pathMatches: exact match, or one of the three placeholder
patterns against a path under /accounts/. -/
def pathMatches (routePath requestPath : String) : Bool :=
  if routePath == requestPath then true
  else if goHasPre requestPath "/accounts/" then
    let parts := goSplitN (goTrimPre requestPath "/accounts/") '/' 4
    if routePath == "/accounts/:id" then
      parts.length == 1 && parts.getD 0 "" != ""
    else if routePath == "/accounts/:id/transactions" then
      parts.length == 2 && parts.getD 0 "" != "" && parts.getD 1 "" == "transactions"
    else if routePath == "/accounts/:id/transactions/:txId" then
      parts.length == 3 && parts.getD 0 "" != "" && parts.getD 1 "" == "transactions"
        && parts.getD 2 "" != ""
    else false
  else false

/-- One entry of the ordered route table (main.route); the handler is
identified by an opaque tag. -/
structure Route where
  method : String
  path : String
  handlerTag : String
  deriving DecidableEq

inductive RouteResult where
  | dispatched (r : Route)
  | methodNotAllowed
  | notFound
  deriving DecidableEq

/-- The loop body of the closure built by main.newRouter, carrying the
pathMatched flag. -/
def routeLoop (method path : String) : List Route → Bool → RouteResult
  | [], matched =>
      if matched then RouteResult.methodNotAllowed else RouteResult.notFound
  | r :: rs, matched =>
      if pathMatches r.path path then
        if r.method == method then RouteResult.dispatched r
        else routeLoop method path rs true
      else routeLoop method path rs matched

/-- main.newRouter, as a function from the route table and a request's
method and path to the dispatch decision. -/
def newRouter (routes : List Route) (method path : String) : RouteResult :=
  routeLoop method path routes false

/-! ### JSON body model.  A body field of a decoded JSON object is
absent, JSON null, or a value.  Go's encoding/json stores nil into a
pointer-typed struct field both when the key is absent and when its
value is null, and the zero value into a plain field in both cases. -/

inductive JsonField (α : Type) where
  | absent
  | null
  | given (a : α)
  deriving DecidableEq

/-- Go decoding of a JSON field into a pointer-typed struct field:
only a real value yields a non-nil pointer. -/
def JsonField.decode : JsonField α → Option α
  | .absent => none
  | .null => none
  | .given a => some a

/-- Go decoding of a JSON field into a plain struct field: a real
value overwrites the zero value d, absent and null leave it. -/
def JsonField.decodeD (f : JsonField α) (d : α) : α :=
  (f.decode).getD d

/-- The JSON object of a create-transaction request body
(handlers.createTransactionRequest before decoding). -/
structure CreateTransactionBody where
  amount : JsonField Rat
  date : JsonField String
  description : JsonField String
  txType : JsonField String
  deriving DecidableEq

/-- handlers.createTransactionRequest after json.Decode: plain fields,
zero-value defaults. -/
structure CreateTransactionRequest where
  amount : Rat
  date : String
  description : String
  txType : String
  deriving DecidableEq

def decodeCreateTransactionBody (b : CreateTransactionBody) : CreateTransactionRequest :=
  ⟨b.amount.decodeD 0, b.date.decodeD "", b.description.decodeD "", b.txType.decodeD ""⟩

/-- The JSON object of a partial-update request body (the anonymous
pointer-field struct in handlers.UpdateTransaction before decoding). -/
structure UpdateTransactionBody where
  amount : JsonField Rat
  date : JsonField String
  description : JsonField String
  txType : JsonField String
  deriving DecidableEq

/-- The anonymous pointer-field struct of handlers.UpdateTransaction
after json.Decode: nil pointers for absent or null fields. -/
structure UpdateTransactionRequest where
  amount : Option Rat
  date : Option String
  description : Option String
  txType : Option String
  deriving DecidableEq

def decodeUpdateTransactionBody (b : UpdateTransactionBody) : UpdateTransactionRequest :=
  ⟨b.amount.decode, b.date.decode, b.description.decode, b.txType.decode⟩

/-- handlers.createAccountRequest after json.Decode (plain string
fields, so absent and null both decode to the empty string). -/
structure CreateAccountRequest where
  name : String
  accType : String
  deriving DecidableEq

/-! ### Persistence collaborator.  The handlers are embedded as pure
functions that take the collaborator's answers as arguments and return
the response together with the ordered list of collaborator calls they
issued. -/

/-- One call issued to the persistence collaborator. -/
inductive StoreCall where
  | getByID (accountID txID : String)
  | getByAccountID (accountID : String) (page pageSize : Int)
  | createTx (t : Transaction)
  | updateTx (t : Transaction)
  | deleteTx (accountID txID : String)
  | getAllAccounts (page pageSize : Int)
  | createAccount (a : Account)
  | updateAccount (a : Account)
  | deleteAccount (id : String)
  deriving DecidableEq

/-- Answer of TransactionStore.GetByID: error, nil (absent), or found. -/
inductive FetchResult where
  | err
  | missing
  | found (t : Transaction)
  deriving DecidableEq

/-- Answer of a store write (Create/Update): error or success. -/
inductive WriteResult where
  | err
  | ok
  deriving DecidableEq

/-- Answer of a store list call: error, or a Go slice (nil or a list)
with the total count.  A nil slice is distinct from an empty one and
serializes to JSON null. -/
inductive ListResult (α : Type) where
  | err
  | ok (items : Option (List α)) (total : Int)

/-- Answer of a store delete: success or an error message (the handler
inspects the message for "not found"). -/
inductive DeleteResult where
  | ok
  | errMsg (msg : String)
  deriving DecidableEq

/-- Serialized body of a successful JSON response.  The data field of a
list envelope is an Option: none is a nil Go slice, which serializes to
JSON null; some l is an explicit (possibly empty) JSON array. -/
inductive ResponseBody where
  | tx (t : Transaction)
  | txList (dataField : Option (List Transaction)) (total : Int) (page pageSize : Int)
  | account (a : Account)
  | accList (dataField : Option (List Account)) (total : Int) (page pageSize : Int)
  | message (m : String)
  deriving DecidableEq

/-- An HTTP response: http.Error / http.NotFound with a status and
message, or utils.WriteJSON with a status and body. -/
inductive Response where
  | error (status : Nat) (message : String)
  | json (status : Nat) (body : ResponseBody)
  deriving DecidableEq

/-- 4xx statuses. -/
def Response.isClientError : Response → Bool
  | .error s _ => decide (400 ≤ s) && decide (s < 500)
  | .json _ _ => false

/-! ### Transaction handler (handlers/transaction_handler).  Each
embedding mirrors the Go function's early returns top to bottom. -/

/-- handlers.ListTransactions.  pageStr and pageSizeStr are the raw
query parameters; fetchOne answers GetByID on the get-one branch and
fetchList answers GetByAccountID on the list branch. -/
def ListTransactions (method path : String) (pageStr pageSizeStr : String)
    (fetchOne : FetchResult) (fetchList : ListResult Transaction) :
    Response × List StoreCall :=
  if method ≠ "GET" then (.error 405 "method not allowed", [])
  else
    let (accountID, txID) := accountIDAndTransactionIDFromPath path
    if accountID = "" then (.error 400 "invalid account ID in path", [])
    else if txID ≠ "" then
      match fetchOne with
      | .err => (.error 500 "failed to get transaction", [.getByID accountID txID])
      | .missing => (.error 404 "404 page not found", [.getByID accountID txID])
      | .found t => (.json 200 (.tx t), [.getByID accountID txID])
    else
      let (page, pageSize) := ParsePagination pageStr pageSizeStr
      match fetchList with
      | .err => (.error 500 "failed to list transactions", [.getByAccountID accountID page pageSize])
      | .ok items total =>
          let items := match items with
            | none => some ([] : List Transaction)
            | some l => some l
          (.json 200 (.txList items total page pageSize), [.getByAccountID accountID page pageSize])

/-- handlers.CreateTransaction.  body is none when json.Decode fails;
newID is the identifier the repository assigns inside Create. -/
def CreateTransaction (method path : String) (body : Option CreateTransactionBody)
    (createRes : WriteResult) (newID : String) : Response × List StoreCall :=
  if method ≠ "POST" then (.error 405 "method not allowed", [])
  else
    let (accountID, txID) := accountIDAndTransactionIDFromPath path
    if accountID = "" ∨ txID ≠ "" then (.error 400 "invalid path for create transaction", [])
    else
      match body with
      | none => (.error 400 "invalid JSON", [])
      | some b =>
          let req := decodeCreateTransactionBody b
          if req.txType = "" then (.error 400 "type is required", [])
          else if ¬ allowedTransactionTypes req.txType then
            (.error 400 "type must be one of: income, expense", [])
          else if req.date = "" then (.error 400 "date is required", [])
          else
            match ParseDate req.date with
            | none => (.error 400 "invalid date (use RFC3339)", [])
            | some d =>
                let tx : Transaction := ⟨"", accountID, req.amount, d, req.description, req.txType⟩
                match createRes with
                | .err => (.error 500 "failed to create transaction", [.createTx tx])
                | .ok => (.json 201 (.tx { tx with id := newID }), [.createTx tx])

/-- Final step of handlers.UpdateTransaction: the Repo.Update call and
the response.  Returns only the calls made from this point on. -/
def updateWriteStep (t : Transaction) (write : WriteResult) : Response × List StoreCall :=
  match write with
  | .err => (.error 500 "failed to update transaction", [.updateTx t])
  | .ok => (.json 200 (.tx t), [.updateTx t])

/-- Merge of the description and type fields in
handlers.UpdateTransaction, then the write. -/
def updateMergeTail (req : UpdateTransactionRequest) (t : Transaction)
    (write : WriteResult) : Response × List StoreCall :=
  let t := match req.description with
    | none => t
    | some ds => { t with description := ds }
  match req.txType with
  | some ty =>
      if ty = "" ∨ ¬ allowedTransactionTypes ty then
        (.error 400 "type must be one of: income, expense", [])
      else updateWriteStep { t with txType := ty } write
  | none => updateWriteStep t write

/-- Merge of the amount and date fields in handlers.UpdateTransaction
onto the fetched transaction, then the rest. -/
def updateMerge (req : UpdateTransactionRequest) (existing : Transaction)
    (write : WriteResult) : Response × List StoreCall :=
  let t := match req.amount with
    | none => existing
    | some a => { existing with amount := a }
  match req.date with
  | some ds =>
      match ParseDate ds with
      | none => (.error 400 "invalid date (use RFC3339)", [])
      | some d => updateMergeTail req { t with date := d } write
  | none => updateMergeTail req t write

/-- handlers.UpdateTransaction.  body is none when json.Decode fails;
fetch answers Repo.GetByID and write answers Repo.Update. -/
def UpdateTransaction (method path : String) (body : Option UpdateTransactionBody)
    (fetch : FetchResult) (write : WriteResult) : Response × List StoreCall :=
  if method ≠ "PUT" then (.error 405 "method not allowed", [])
  else
    let (accountID, txID) := accountIDAndTransactionIDFromPath path
    if accountID = "" ∨ txID = "" then (.error 400 "invalid path for update transaction", [])
    else
      match body with
      | none => (.error 400 "invalid JSON", [])
      | some b =>
          let req := decodeUpdateTransactionBody b
          match fetch with
          | .err => (.error 500 "failed to get transaction", [.getByID accountID txID])
          | .missing => (.error 404 "404 page not found", [.getByID accountID txID])
          | .found existing =>
              let (resp, calls) := updateMerge req existing write
              (resp, .getByID accountID txID :: calls)

/-- handlers.DeleteTransaction.  deleteRes answers Repo.Delete; the
handler inspects an error message for the substring "not found". -/
def DeleteTransaction (method path : String) (deleteRes : DeleteResult) :
    Response × List StoreCall :=
  if method ≠ "DELETE" then (.error 405 "method not allowed", [])
  else
    let (accountID, txID) := accountIDAndTransactionIDFromPath path
    if accountID = "" ∨ txID = "" then (.error 400 "invalid path for delete transaction", [])
    else
      match deleteRes with
      | .errMsg m =>
          if goContainsStr m "not found" then
            (.error 404 "404 page not found", [.deleteTx accountID txID])
          else (.error 500 "failed to delete transaction", [.deleteTx accountID txID])
      | .ok => (.json 200 (.message "transaction deleted"), [.deleteTx accountID txID])

/-! ### Account handler (api/handlers/account_handler.go) -/

/-- handlers.ListAccounts. -/
def ListAccounts (method : String) (pageStr pageSizeStr : String)
    (fetchList : ListResult Account) : Response × List StoreCall :=
  if method ≠ "GET" then (.error 405 "method not allowed", [])
  else
    let (page, pageSize) := ParsePagination pageStr pageSizeStr
    match fetchList with
    | .err => (.error 500 "failed to list accounts", [.getAllAccounts page pageSize])
    | .ok items total =>
        let items := match items with
          | none => some ([] : List Account)
          | some l => some l
        (.json 200 (.accList items total page pageSize), [.getAllAccounts page pageSize])

/-- handlers.CreateAccount.  body is none when json.Decode fails. -/
def CreateAccount (method : String) (body : Option CreateAccountRequest)
    (createRes : WriteResult) (newID : String) : Response × List StoreCall :=
  if method ≠ "POST" then (.error 405 "method not allowed", [])
  else
    match body with
    | none => (.error 400 "invalid JSON", [])
    | some req =>
        if req.name = "" then (.error 400 "name is required", [])
        else if req.accType = "" then (.error 400 "type is required", [])
        else if ¬ allowedAccountTypes req.accType then
          (.error 400 "type must be one of: bank, cash, credit, other", [])
        else
          let acc : Account := ⟨"", req.name, req.accType⟩
          match createRes with
          | .err => (.error 500 "failed to create account", [.createAccount acc])
          | .ok => (.json 201 (.account { acc with id := newID }), [.createAccount acc])

/-- handlers.UpdateAccount (wholesale update, both fields required). -/
def UpdateAccount (method path : String) (body : Option CreateAccountRequest)
    (updateRes : WriteResult) : Response × List StoreCall :=
  if method ≠ "PUT" then (.error 405 "method not allowed", [])
  else
    let id := accountIDFromPath path
    if id = "" then (.error 400 "invalid account ID in path", [])
    else
      match body with
      | none => (.error 400 "invalid JSON", [])
      | some req =>
          if req.name = "" then (.error 400 "name is required", [])
          else if req.accType = "" then (.error 400 "type is required", [])
          else if ¬ allowedAccountTypes req.accType then
            (.error 400 "type must be one of: bank, cash, other", [])
          else
            let acc : Account := ⟨id, req.name, req.accType⟩
            match updateRes with
            | .err => (.error 500 "failed to update account", [.updateAccount acc])
            | .ok => (.json 200 (.account acc), [.updateAccount acc])

/-- handlers.DeleteAccount.  queryID is the value of the id query
parameter, the legacy fallback when the path yields no identifier. -/
def DeleteAccount (method path queryID : String) (deleteRes : WriteResult) :
    Response × List StoreCall :=
  if method ≠ "DELETE" then (.error 405 "method not allowed", [])
  else
    let accID := accountIDFromPath path
    let accID := if accID = "" then queryID else accID
    if accID = "" then (.error 400 "ID is required (path or query)", [])
    else
      match deleteRes with
      | .err => (.error 500 "failed to delete account", [.deleteAccount accID])
      | .ok => (.json 200 (.message "account deleted"), [.deleteAccount accID])

/-! ### Concrete sample values used by witnesses and counterexamples -/

def sampleDate : DateTime := ⟨2025, 2, 25, 12, 0, 0, [], UtcOffset.utc⟩

def sampleTx : Transaction := ⟨"tx-1", "acc-1", 50, sampleDate, "old", "income"⟩

/-- An update body supplying only the amount field. -/
def amountOnlyBody : UpdateTransactionBody :=
  ⟨JsonField.given (mkRat 7525 100), JsonField.absent, JsonField.absent, JsonField.absent⟩

/-- An update body supplying only an invalid type. -/
def badTypeBody : UpdateTransactionBody :=
  ⟨JsonField.absent, JsonField.absent, JsonField.absent, JsonField.given "transfer"⟩

/-- An update body supplying only an unparsable date. -/
def badDateBody : UpdateTransactionBody :=
  ⟨JsonField.absent, JsonField.given "not-a-date", JsonField.absent, JsonField.absent⟩

example : ParseDate "2025-02-25T12:00:00Z" = some sampleDate := by decide

example :
    UpdateTransaction "PUT" "/accounts/acc-1/transactions/tx-1" (some amountOnlyBody)
      (FetchResult.found sampleTx) WriteResult.ok =
    (Response.json 200 (ResponseBody.tx { sampleTx with amount := mkRat 7525 100 }),
     [StoreCall.getByID "acc-1" "tx-1", StoreCall.updateTx { sampleTx with amount := mkRat 7525 100 }]) := by
  decide

example :
    CreateAccount "POST" (some ⟨"", "bank"⟩) WriteResult.ok "a9" =
    (Response.error 400 "name is required", []) := by decide

example :
    CreateAccount "POST" (some ⟨"Checking", "credit"⟩) WriteResult.ok "a9" =
    (Response.error 400 "type must be one of: bank, cash, credit, other", []) := by decide

/-- Modelled from the spec: the merged resource of a partial update —
"only supplied fields overwrite the corresponding attribute of the
fetched resource", a supplied date standing for its parsed value, with
identifier and owning account identifier always those of the fetched
resource.  Compared against the handler's sequential merge. -/
def mergedTransactionSpec (req : UpdateTransactionRequest) (ex : Transaction) : Transaction :=
  { id := ex.id
    accountID := ex.accountID
    amount := req.amount.getD ex.amount
    date := match req.date with
      | some s => (ParseDate s).getD ex.date
      | none => ex.date
    description := req.description.getD ex.description
    txType := req.txType.getD ex.txType }

/-- Does a response avoid a null data collection?  False exactly for a
list envelope serialized from a nil Go slice. -/
def dataNotNull : Response → Bool
  | .json _ (.txList none _ _ _) => false
  | .json _ (.accList none _ _ _) => false
  | _ => true

/-- The route table registered in main.getRouter, in source order. -/
def apiRoutes : List Route :=
  [⟨"GET", "/", "health"⟩,
   ⟨"GET", "/accounts", "listAccounts"⟩,
   ⟨"POST", "/accounts", "createAccount"⟩,
   ⟨"PUT", "/accounts/:id", "updateAccount"⟩,
   ⟨"DELETE", "/accounts/:id", "deleteAccount"⟩,
   ⟨"GET", "/accounts/:id/transactions/:txId", "listTransactions"⟩,
   ⟨"PUT", "/accounts/:id/transactions/:txId", "updateTransaction"⟩,
   ⟨"DELETE", "/accounts/:id/transactions/:txId", "deleteTransaction"⟩,
   ⟨"GET", "/accounts/:id/transactions", "listTransactions"⟩,
   ⟨"POST", "/accounts/:id/transactions", "createTransaction"⟩]

/-! ## Claims -/

/-- C2: pagination parsing falls back to page 1 when the page
parameter is absent (the empty string), non-numeric, or below 1, and
otherwise keeps it; pageSize falls back to 20 when absent, non-numeric
or below 1, is clamped to 100 when above 100, and is otherwise kept. -/
theorem parsePagination_defaults_and_clamp (ps pss : String) :
    (ps = "" → (ParsePagination ps pss).1 = 1)
  ∧ (atoi ps = none → (ParsePagination ps pss).1 = 1)
  ∧ (∀ v : Int, atoi ps = some v → v < 1 → (ParsePagination ps pss).1 = 1)
  ∧ (∀ v : Int, atoi ps = some v → 1 ≤ v → (ParsePagination ps pss).1 = v)
  ∧ (pss = "" → (ParsePagination ps pss).2 = 20)
  ∧ (atoi pss = none → (ParsePagination ps pss).2 = 20)
  ∧ (∀ v : Int, atoi pss = some v → v < 1 → (ParsePagination ps pss).2 = 20)
  ∧ (∀ v : Int, atoi pss = some v → 1 ≤ v → v ≤ 100 → (ParsePagination ps pss).2 = v)
  ∧ (∀ v : Int, atoi pss = some v → 100 < v → (ParsePagination ps pss).2 = 100) := by
  have hempty : atoi "" = none := by decide
  refine ⟨?_, ?_, ?_, ?_, ?_, ?_, ?_, ?_, ?_⟩
  · intro h
    subst h
    simp [ParsePagination]
  · intro h
    by_cases hps : ps = ""
    · subst hps; simp [ParsePagination]
    · simp [ParsePagination, hps, h]
  · intro v hv hlt
    by_cases hps : ps = ""
    · subst hps; rw [hempty] at hv; exact absurd hv (by simp)
    · simp [ParsePagination, hps, hv, not_le.mpr hlt]
  · intro v hv hge
    by_cases hps : ps = ""
    · subst hps; rw [hempty] at hv; exact absurd hv (by simp)
    · simp [ParsePagination, hps, hv, hge]
  · intro h
    subst h
    simp [ParsePagination, defaultPageSize, maxPageSize]
  · intro h
    by_cases hpss : pss = ""
    · subst hpss; simp [ParsePagination, defaultPageSize, maxPageSize]
    · simp [ParsePagination, hpss, h, defaultPageSize, maxPageSize]
  · intro v hv hlt
    by_cases hpss : pss = ""
    · subst hpss; rw [hempty] at hv; exact absurd hv (by simp)
    · simp [ParsePagination, hpss, hv, not_le.mpr hlt, defaultPageSize, maxPageSize]
  · intro v hv hge hle
    by_cases hpss : pss = ""
    · subst hpss; rw [hempty] at hv; exact absurd hv (by simp)
    · simp [ParsePagination, hpss, hv, hge, defaultPageSize, maxPageSize, not_lt.mpr hle]
  · intro v hv hgt
    by_cases hpss : pss = ""
    · subst hpss; rw [hempty] at hv; exact absurd hv (by simp)
    · have h1 : (1 : Int) ≤ v := by linarith
      simp [ParsePagination, hpss, hv, h1, hgt, defaultPageSize, maxPageSize]

/-- Witness for C2 at concrete inputs: a non-numeric page together
with an over-large pageSize, evaluated through the theorem. -/
theorem parsePagination_defaults_and_clamp_witness :
    (ParsePagination "abc" "500").1 = 1 ∧ (ParsePagination "abc" "500").2 = 100 := by
  refine ⟨(parsePagination_defaults_and_clamp "abc" "500").2.1 (by decide), ?_⟩
  exact (parsePagination_defaults_and_clamp "abc" "500").2.2.2.2.2.2.2.2 500 (by decide) (by decide)

/-- The router loop, characterized: dispatch to the first route whose
path and method both match; otherwise 405 when the flag is set or some
route's path matches, else 404. -/
theorem routeLoop_eq (m p : String) (rs : List Route) (b : Bool) :
    routeLoop m p rs b =
      match rs.find? (fun r => pathMatches r.path p && r.method == m) with
      | some r => RouteResult.dispatched r
      | none =>
          if b || rs.any (fun r => pathMatches r.path p) then RouteResult.methodNotAllowed
          else RouteResult.notFound := by
  induction rs generalizing b with
  | nil => cases b <;> simp [routeLoop]
  | cons r rs ih =>
      by_cases hp : pathMatches r.path p
      · by_cases hm : r.method == m
        · simp [routeLoop, hp, hm, List.find?_cons, List.any_cons]
        · simp only [Bool.not_eq_true] at hm
          simp [routeLoop, hp, hm, List.find?_cons, List.any_cons, ih]
      · simp only [Bool.not_eq_true] at hp
        simp [routeLoop, hp, List.find?_cons, List.any_cons, ih]

/-- C5: for any ordered route table and request, the router answers
405 when some route's path shape matches but no path-matching route has
the request's method, 404 when no route's path matches, and otherwise
dispatches to the first listed route matching both path and method. -/
theorem newRouter_dispatch_policy (routes : List Route) (method path : String) :
    ((∃ r ∈ routes, pathMatches r.path path = true) →
      (∀ r ∈ routes, pathMatches r.path path = true → r.method ≠ method) →
      newRouter routes method path = RouteResult.methodNotAllowed)
  ∧ ((∀ r ∈ routes, pathMatches r.path path = false) →
      newRouter routes method path = RouteResult.notFound)
  ∧ (∀ r : Route,
      routes.find? (fun r => pathMatches r.path path && r.method == method) = some r →
      newRouter routes method path = RouteResult.dispatched r) := by
  refine ⟨?_, ?_, ?_⟩
  · rintro ⟨r0, hr0, hmatch⟩ hnone
    have hfind : routes.find? (fun r => pathMatches r.path path && r.method == method) = none := by
      rw [List.find?_eq_none]
      intro r hr
      simp only [Bool.and_eq_true, beq_iff_eq, not_and]
      intro hpm
      exact hnone r hr hpm
    have hany : routes.any (fun r => pathMatches r.path path) = true := by
      rw [List.any_eq_true]
      exact ⟨r0, hr0, hmatch⟩
    rw [newRouter, routeLoop_eq, hfind]
    simp [hany]
  · intro hall
    have hfind : routes.find? (fun r => pathMatches r.path path && r.method == method) = none := by
      rw [List.find?_eq_none]
      intro r hr
      simp [hall r hr]
    have hany : routes.any (fun r => pathMatches r.path path) = false := by
      simp only [List.any_eq_false]
      intro r hr
      simp [hall r hr]
    rw [newRouter, routeLoop_eq, hfind]
    simp [hany]
  · intro r hfind
    rw [newRouter, routeLoop_eq, hfind]

/-- Witness for C5 on the real route table: a PUT-only path with a
wrong method gets 405, an unknown path gets 404, and a matching
request dispatches to the first matching route. -/
theorem newRouter_dispatch_policy_witness :
    newRouter apiRoutes "PATCH" "/accounts/a1" = RouteResult.methodNotAllowed
  ∧ newRouter apiRoutes "GET" "/nope" = RouteResult.notFound
  ∧ newRouter apiRoutes "GET" "/accounts/a1/transactions/t1" =
      RouteResult.dispatched ⟨"GET", "/accounts/:id/transactions/:txId", "listTransactions"⟩ := by
  refine ⟨?_, ?_, ?_⟩
  · exact (newRouter_dispatch_policy apiRoutes "PATCH" "/accounts/a1").1
      ⟨⟨"PUT", "/accounts/:id", "updateAccount"⟩, by decide, by decide⟩ (by decide)
  · exact (newRouter_dispatch_policy apiRoutes "GET" "/nope").2.1 (by decide)
  · exact (newRouter_dispatch_policy apiRoutes "GET" "/accounts/a1/transactions/t1").2.2
      ⟨"GET", "/accounts/:id/transactions/:txId", "listTransactions"⟩ (by decide)

theorem mk_data (s : String) : String.mk s.data = s := rfl

theorem listStarts_append (l m : List Char) : listStarts l (l ++ m) = true := by
  induction l with
  | nil => rfl
  | cons c cs ih => simp [listStarts, ih]

theorem splitFirst_of_not_mem {l : List Char} (h : ('/' : Char) ∉ l) :
    splitFirst '/' l = none := by
  induction l with
  | nil => rfl
  | cons c cs ih =>
      simp only [List.mem_cons, not_or] at h
      have hc : (c == '/') = false := by
        simp only [beq_eq_false_iff_ne]
        exact fun e => h.1 e.symm
      simp [splitFirst, hc, ih h.2]

theorem splitFirst_append {l₁ : List Char} (l₂ : List Char) (h : ('/' : Char) ∉ l₁) :
    splitFirst '/' (l₁ ++ '/' :: l₂) = some (l₁, l₂) := by
  induction l₁ with
  | nil => simp [splitFirst]
  | cons c cs ih =>
      simp only [List.mem_cons, not_or] at h
      have hc : (c == '/') = false := by
        simp only [beq_eq_false_iff_ne]
        exact fun e => h.1 e.symm
      simp [splitFirst, hc, ih h.2]

theorem goHasPre_accounts (x : String) : goHasPre ("/accounts/" ++ x) "/accounts/" = true := by
  simp only [goHasPre, String.data_append]
  exact listStarts_append _ _

theorem goTrimPre_accounts (x : String) : goTrimPre ("/accounts/" ++ x) "/accounts/" = x := by
  simp only [goTrimPre, goHasPre_accounts, if_true, String.data_append]
  rw [List.drop_left]

theorem splitNChars_succ2 (sep : Char) (n : Nat) (s : List Char) :
    splitNChars sep (n + 2) s =
      match splitFirst sep s with
      | none => [s]
      | some (a, b) => a :: splitNChars sep (n + 1) b := rfl

theorem splitNChars3 (x rest : List Char) (hx : ('/' : Char) ∉ x) :
    splitNChars '/' 3 (x ++ '/' :: rest) = x :: splitNChars '/' 2 rest := by
  rw [show (3 : Nat) = 1 + 2 from rfl, splitNChars_succ2, splitFirst_append rest hx]

theorem splitNChars2_cons (y rest : List Char) (hy : ('/' : Char) ∉ y) :
    splitNChars '/' 2 (y ++ '/' :: rest) = [y, rest] := by
  rw [show (2 : Nat) = 0 + 2 from rfl, splitNChars_succ2, splitFirst_append rest hy]
  rfl

theorem splitNChars2_none (y : List Char) (hy : ('/' : Char) ∉ y) :
    splitNChars '/' 2 y = [y] := by
  rw [show (2 : Nat) = 0 + 2 from rfl, splitNChars_succ2, splitFirst_of_not_mem hy]

theorem splitNChars3_none (y : List Char) (hy : ('/' : Char) ∉ y) :
    splitNChars '/' 3 y = [y] := by
  rw [show (3 : Nat) = 1 + 2 from rfl, splitNChars_succ2, splitFirst_of_not_mem hy]

theorem goContainsChar_eq_false {s : String} (h : ('/' : Char) ∉ s.data) :
    goContainsChar s '/' = false := by
  simp only [goContainsChar, List.contains]
  rw [Bool.eq_false_iff]
  intro hx
  exact h (List.elem_iff.mp hx)

theorem goContainsChar_eq_true {s : String} (h : ('/' : Char) ∈ s.data) :
    goContainsChar s '/' = true := by
  simp only [goContainsChar, List.contains]
  exact List.elem_iff.mpr h

/-- The transaction path parser on any path of the form
/accounts/ followed by x, in terms of splitting x. -/
theorem parse_append (x : String) :
    accountIDAndTransactionIDFromPath ("/accounts/" ++ x) =
      (match goSplitN x '/' 3 with
      | [a, b] => if a ≠ "" ∧ b = "transactions" then (a, "") else ("", "")
      | [a, b, c] =>
          if a ≠ "" ∧ b = "transactions" then
            (a, if c ≠ "" ∧ ¬ goContainsChar c '/' then c else "")
          else ("", "")
      | _ => ("", "")) := by
  simp [accountIDAndTransactionIDFromPath, goHasPre_accounts, goTrimPre_accounts]

/-- C8, counterexample: a trailing slash after "transactions" does not
yield the no-match answer; the account ID is still extracted, as the
repository's own handler test expects. -/
theorem pathParse_trailing_slash_counterexample :
    accountIDAndTransactionIDFromPath "/accounts/acc-1/transactions/" = ("acc-1", "")
  ∧ accountIDAndTransactionIDFromPath "/accounts/acc-1/transactions/" ≠ ("", "") := by
  decide

/-- C8, amended: the exact list and get shapes extract the account ID
and optional transaction ID; a missing account ID or a wrong literal
segment yields no match; but trailing slash noise (a bare trailing
slash, or a slash-containing tail after the transaction ID position)
still extracts the account ID with an empty transaction ID, matching
as a list shape.  Slash-freeness of a segment s is stated as
('/') ∉ s.data. -/
theorem pathParse_shapes (a t seg : String)
    (ha : a ≠ "") (ha2 : ('/' : Char) ∉ a.data)
    (ht : t ≠ "") (ht2 : ('/' : Char) ∉ t.data)
    (hseg : seg ≠ "transactions") (hseg2 : ('/' : Char) ∉ seg.data) :
    accountIDAndTransactionIDFromPath ("/accounts/" ++ a ++ "/transactions") = (a, "")
  ∧ accountIDAndTransactionIDFromPath ("/accounts/" ++ a ++ "/transactions/" ++ t) = (a, t)
  ∧ accountIDAndTransactionIDFromPath ("/accounts/" ++ a ++ "/transactions/") = (a, "")
  ∧ accountIDAndTransactionIDFromPath ("/accounts/" ++ a ++ "/transactions/" ++ t ++ "/x") = (a, "")
  ∧ accountIDAndTransactionIDFromPath "/accounts//transactions" = ("", "")
  ∧ accountIDAndTransactionIDFromPath ("/accounts/" ++ a ++ "/" ++ seg) = ("", "")
  ∧ accountIDAndTransactionIDFromPath ("/accounts/" ++ a) = ("", "")
  ∧ (∀ p : String, goHasPre p "/accounts/" = false →
      accountIDAndTransactionIDFromPath p = ("", "")) := by
  have hc1 : ('/' : Char) ∉ ("transactions" : String).data := by decide
  refine ⟨?_, ?_, ?_, ?_, by decide, ?_, ?_, ?_⟩
  · rw [String.append_assoc, parse_append]
    have hd : (a ++ "/transactions").data = a.data ++ '/' :: ("transactions" : String).data := by
      rw [String.data_append]
    have hsplit : goSplitN (a ++ "/transactions") '/' 3 = [a, "transactions"] := by
      simp only [goSplitN, hd, splitNChars3 _ _ ha2, splitNChars2_none _ hc1]
      simp [mk_data]
    rw [hsplit]
    simp [ha]
  · rw [String.append_assoc, String.append_assoc, parse_append]
    have hd : (a ++ ("/transactions/" ++ t)).data =
        a.data ++ '/' :: (("transactions" : String).data ++ '/' :: t.data) := by
      simp
    have hsplit : goSplitN (a ++ ("/transactions/" ++ t)) '/' 3 = [a, "transactions", t] := by
      simp only [goSplitN, hd, splitNChars3 _ _ ha2, splitNChars2_cons _ _ hc1]
      simp [mk_data]
    rw [hsplit]
    simp [ha, ht, goContainsChar_eq_false ht2]
  · rw [String.append_assoc, parse_append]
    have hd : (a ++ "/transactions/").data =
        a.data ++ '/' :: (("transactions" : String).data ++ '/' :: ([] : List Char)) := by
      simp
    have hsplit : goSplitN (a ++ "/transactions/") '/' 3 = [a, "transactions", ""] := by
      simp only [goSplitN, hd, splitNChars3 _ _ ha2, splitNChars2_cons _ _ hc1]
      simp [mk_data]
    rw [hsplit]
    simp [ha]
  · rw [String.append_assoc, String.append_assoc, String.append_assoc, parse_append]
    have hd : (a ++ ("/transactions/" ++ (t ++ "/x"))).data =
        a.data ++ '/' :: (("transactions" : String).data ++ '/' :: (t.data ++ '/' :: ("x" : String).data)) := by
      simp
    have hsplit : goSplitN (a ++ ("/transactions/" ++ (t ++ "/x"))) '/' 3 =
        [a, "transactions", String.mk (t.data ++ '/' :: ("x" : String).data)] := by
      simp only [goSplitN, hd, splitNChars3 _ _ ha2, splitNChars2_cons _ _ hc1]
      simp [mk_data]
    rw [hsplit]
    have hmem : ('/' : Char) ∈ (String.mk (t.data ++ '/' :: ("x" : String).data)).data := by
      simp
    simp [ha, goContainsChar_eq_true hmem]
  · rw [String.append_assoc, String.append_assoc, parse_append]
    have hd : (a ++ ("/" ++ seg)).data = a.data ++ '/' :: seg.data := by
      simp
    have hsplit : goSplitN (a ++ ("/" ++ seg)) '/' 3 = [a, seg] := by
      simp only [goSplitN, hd, splitNChars3 _ _ ha2, splitNChars2_none _ hseg2]
      simp [mk_data]
    rw [hsplit]
    simp [hseg]
  · rw [parse_append]
    have hsplit : goSplitN a '/' 3 = [a] := by
      simp only [goSplitN, splitNChars3_none _ ha2]
      simp [mk_data]
    rw [hsplit]
  · intro p h
    simp [accountIDAndTransactionIDFromPath, h]

/-- Witness for C8's amended statement at concrete segments. -/
theorem pathParse_shapes_witness :
    accountIDAndTransactionIDFromPath "/accounts/acc-1/transactions/tx-1" = ("acc-1", "tx-1")
  ∧ accountIDAndTransactionIDFromPath "/accounts/acc-1/other" = ("", "") := by
  have h := pathParse_shapes "acc-1" "tx-1" "other" (by decide) (by decide) (by decide)
    (by decide) (by decide) (by decide)
  refine ⟨?_, ?_⟩
  · have e : ("/accounts/" ++ "acc-1" ++ "/transactions/" ++ "tx-1" : String) =
        "/accounts/acc-1/transactions/tx-1" := by decide
    exact e ▸ h.2.1
  · have e : ("/accounts/" ++ "acc-1" ++ "/" ++ "other" : String) = "/accounts/acc-1/other" := by
      decide
    exact e ▸ h.2.2.2.2.2.1

/-- C9: neither list handler ever serializes a null data collection:
every response of ListAccounts and ListTransactions, for every method,
path, query and collaborator answer, satisfies dataNotNull — in
particular a nil slice from the store is replaced by an empty list. -/
theorem list_data_never_null (method ps pss path : String)
    (fo : FetchResult) (fl : ListResult Transaction) (fa : ListResult Account) :
    dataNotNull (ListAccounts method ps pss fa).1 = true
  ∧ dataNotNull (ListTransactions method path ps pss fo fl).1 = true := by
  constructor
  · by_cases hm : method = "GET"
    · rcases fa with _ | ⟨items, total⟩
      · simp [ListAccounts, hm, dataNotNull]
      · rcases items with _ | l <;> simp [ListAccounts, hm, dataNotNull]
    · simp [ListAccounts, hm, dataNotNull]
  · by_cases hm : method = "GET"
    · rcases hpair : accountIDAndTransactionIDFromPath path with ⟨accID, txID⟩
      by_cases hacc : accID = ""
      · simp [ListTransactions, hm, hpair, hacc, dataNotNull]
      · by_cases htx : txID = ""
        · rcases fl with _ | ⟨items, total⟩
          · simp [ListTransactions, hm, hpair, hacc, htx, dataNotNull]
          · rcases items with _ | l <;> simp [ListTransactions, hm, hpair, hacc, htx, dataNotNull]
        · rcases fo with _ | _ | t <;> simp [ListTransactions, hm, hpair, hacc, htx, dataNotNull]
    · simp [ListTransactions, hm, dataNotNull]

/-- C10: in a partial transaction update, a field set to JSON null is
treated exactly like an absent field — the handler's whole observable
behaviour (response and persistence calls) is identical, so null
preserves the stored value, undergoes no validation, and cannot clear
a field. -/
theorem update_null_is_absent (method path : String) (b : UpdateTransactionBody)
    (fetch : FetchResult) (write : WriteResult) :
    UpdateTransaction method path (some { b with amount := JsonField.null }) fetch write
      = UpdateTransaction method path (some { b with amount := JsonField.absent }) fetch write
  ∧ UpdateTransaction method path (some { b with date := JsonField.null }) fetch write
      = UpdateTransaction method path (some { b with date := JsonField.absent }) fetch write
  ∧ UpdateTransaction method path (some { b with description := JsonField.null }) fetch write
      = UpdateTransaction method path (some { b with description := JsonField.absent }) fetch write
  ∧ UpdateTransaction method path (some { b with txType := JsonField.null }) fetch write
      = UpdateTransaction method path (some { b with txType := JsonField.absent }) fetch write :=
  ⟨rfl, rfl, rfl, rfl⟩

/-- C7: account creation with a missing name answers the client error
"name is required"; with a non-empty type outside the enforced
allow-set it answers a client error whose message lists the allowed
values (bank, cash, other — the message also names credit, which the
allow-set itself rejects). -/
theorem createAccount_validation (req : CreateAccountRequest) (cr : WriteResult) (newID : String) :
    (req.name = "" →
      CreateAccount "POST" (some req) cr newID = (Response.error 400 "name is required", []))
  ∧ (req.name ≠ "" → req.accType ≠ "" → allowedAccountTypes req.accType = false →
      CreateAccount "POST" (some req) cr newID =
        (Response.error 400 "type must be one of: bank, cash, credit, other", []))
  ∧ allowedAccountTypes "credit" = false
  ∧ goContainsStr "type must be one of: bank, cash, credit, other" "bank" = true
  ∧ goContainsStr "type must be one of: bank, cash, credit, other" "cash" = true
  ∧ goContainsStr "type must be one of: bank, cash, credit, other" "other" = true := by
  refine ⟨?_, ?_, by decide, by decide, by decide, by decide⟩
  · intro h
    simp [CreateAccount, h]
  · intro h1 h2 h3
    simp [CreateAccount, h1, h2, h3]

/-- Witness for C7: a body with no name, and one with type credit. -/
theorem createAccount_validation_witness :
    CreateAccount "POST" (some ⟨"", "bank"⟩) WriteResult.ok "a9" =
      (Response.error 400 "name is required", [])
  ∧ CreateAccount "POST" (some ⟨"Checking", "credit"⟩) WriteResult.ok "a9" =
      (Response.error 400 "type must be one of: bank, cash, credit, other", []) :=
  ⟨(createAccount_validation ⟨"", "bank"⟩ WriteResult.ok "a9").1 rfl,
   (createAccount_validation ⟨"Checking", "credit"⟩ WriteResult.ok "a9").2.1
     (by decide) (by decide) (by decide)⟩

/-- C6: transaction creation on a valid path with a decoded body:
missing type answers "type is required"; a present but invalid type
answers the enum error; a missing date answers "date is required",
which is distinct from the error for a present but unparsable date;
and on success the unspecified amount defaults to zero and the
unspecified description to the empty string. -/
theorem createTransaction_validation (path a : String) (b : CreateTransactionBody)
    (cr : WriteResult) (newID : String)
    (hpair : accountIDAndTransactionIDFromPath path = (a, ""))
    (ha : a ≠ "") :
    ((decodeCreateTransactionBody b).txType = "" →
      CreateTransaction "POST" path (some b) cr newID = (Response.error 400 "type is required", []))
  ∧ ((decodeCreateTransactionBody b).txType ≠ "" →
      allowedTransactionTypes (decodeCreateTransactionBody b).txType = false →
      CreateTransaction "POST" path (some b) cr newID =
        (Response.error 400 "type must be one of: income, expense", []))
  ∧ (allowedTransactionTypes (decodeCreateTransactionBody b).txType = true →
      (decodeCreateTransactionBody b).date = "" →
      CreateTransaction "POST" path (some b) cr newID = (Response.error 400 "date is required", []))
  ∧ (allowedTransactionTypes (decodeCreateTransactionBody b).txType = true →
      (decodeCreateTransactionBody b).date ≠ "" →
      ParseDate (decodeCreateTransactionBody b).date = none →
      CreateTransaction "POST" path (some b) cr newID =
        (Response.error 400 "invalid date (use RFC3339)", []))
  ∧ ("invalid date (use RFC3339)" : String) ≠ "date is required"
  ∧ (∀ d : DateTime, allowedTransactionTypes (decodeCreateTransactionBody b).txType = true →
      ParseDate (decodeCreateTransactionBody b).date = some d →
      cr = WriteResult.ok →
      CreateTransaction "POST" path (some b) cr newID =
        (Response.json 201 (ResponseBody.tx
            ⟨newID, a, (decodeCreateTransactionBody b).amount, d,
             (decodeCreateTransactionBody b).description, (decodeCreateTransactionBody b).txType⟩),
         [StoreCall.createTx
            ⟨"", a, (decodeCreateTransactionBody b).amount, d,
             (decodeCreateTransactionBody b).description, (decodeCreateTransactionBody b).txType⟩]))
  ∧ (b.amount = JsonField.absent → (decodeCreateTransactionBody b).amount = 0)
  ∧ (b.description = JsonField.absent → (decodeCreateTransactionBody b).description = "") := by
  have htype_ne : ∀ h : allowedTransactionTypes (decodeCreateTransactionBody b).txType = true,
      (decodeCreateTransactionBody b).txType ≠ "" := by
    intro h he
    rw [he] at h
    exact absurd h (by decide)
  refine ⟨?_, ?_, ?_, ?_, by decide, ?_, ?_, ?_⟩
  · intro h
    simp [CreateTransaction, hpair, ha, h]
  · intro h1 h2
    simp [CreateTransaction, hpair, ha, h1, h2]
  · intro h1 h2
    simp [CreateTransaction, hpair, ha, htype_ne h1, h1, h2]
  · intro h1 h2 h3
    simp [CreateTransaction, hpair, ha, htype_ne h1, h1, h2, h3]
  · intro d h1 h2 hcr
    subst hcr
    have h3 : (decodeCreateTransactionBody b).date ≠ "" := by
      intro he
      rw [he, show ParseDate "" = (none : Option DateTime) from by decide] at h2
      exact Option.noConfusion h2
    simp [CreateTransaction, hpair, ha, htype_ne h1, h1, h2, h3]
  · intro h
    simp [decodeCreateTransactionBody, h, JsonField.decodeD, JsonField.decode]
  · intro h
    simp [decodeCreateTransactionBody, h, JsonField.decodeD, JsonField.decode]

/-- Witness for C6 at concrete bodies: missing type, invalid type,
missing date, unparsable date, and a success with amount and
description unspecified. -/
theorem createTransaction_validation_witness :
    CreateTransaction "POST" "/accounts/acc-1/transactions"
      (some ⟨JsonField.given 10, JsonField.given "2025-02-25T12:00:00Z", JsonField.absent, JsonField.absent⟩)
      WriteResult.ok "t9" = (Response.error 400 "type is required", [])
  ∧ CreateTransaction "POST" "/accounts/acc-1/transactions"
      (some ⟨JsonField.given 10, JsonField.given "2025-02-25T12:00:00Z", JsonField.absent, JsonField.given "transfer"⟩)
      WriteResult.ok "t9" = (Response.error 400 "type must be one of: income, expense", [])
  ∧ CreateTransaction "POST" "/accounts/acc-1/transactions"
      (some ⟨JsonField.given 10, JsonField.absent, JsonField.absent, JsonField.given "expense"⟩)
      WriteResult.ok "t9" = (Response.error 400 "date is required", [])
  ∧ CreateTransaction "POST" "/accounts/acc-1/transactions"
      (some ⟨JsonField.given 10, JsonField.given "not-a-date", JsonField.absent, JsonField.given "expense"⟩)
      WriteResult.ok "t9" = (Response.error 400 "invalid date (use RFC3339)", [])
  ∧ (CreateTransaction "POST" "/accounts/acc-1/transactions"
      (some ⟨JsonField.absent, JsonField.given "2025-02-25T12:00:00Z", JsonField.absent, JsonField.given "expense"⟩)
      WriteResult.ok "t9" =
        (Response.json 201 (ResponseBody.tx ⟨"t9", "acc-1", 0, sampleDate, "", "expense"⟩),
         [StoreCall.createTx ⟨"", "acc-1", 0, sampleDate, "", "expense"⟩])) := by
  have hp : accountIDAndTransactionIDFromPath "/accounts/acc-1/transactions" = ("acc-1", "") := by
    decide
  refine ⟨?_, ?_, ?_, ?_, ?_⟩
  · exact (createTransaction_validation _ _ _ _ _ hp (by decide)).1 (by decide)
  · exact (createTransaction_validation _ _ _ _ _ hp (by decide)).2.1 (by decide) (by decide)
  · exact (createTransaction_validation _ _ _ _ _ hp (by decide)).2.2.1 (by decide) (by decide)
  · exact (createTransaction_validation _ _ _ _ _ hp (by decide)).2.2.2.1
      (by decide) (by decide) (by decide)
  · have h := (createTransaction_validation "/accounts/acc-1/transactions" "acc-1"
        ⟨JsonField.absent, JsonField.given "2025-02-25T12:00:00Z", JsonField.absent, JsonField.given "expense"⟩
        WriteResult.ok "t9" hp (by decide)).2.2.2.2.2.1 sampleDate (by decide) (by decide) rfl
    exact h.trans (by decide)

theorem isClientError_400 (msg : String) :
    Response.isClientError (Response.error 400 msg) = true := rfl

theorem isClientError_404 (msg : String) :
    Response.isClientError (Response.error 404 msg) = true := rfl

theorem isClientError_405 (msg : String) :
    Response.isClientError (Response.error 405 msg) = true := rfl

/-- The merge step answers a 400 without any store call whenever the
body supplies an empty or disallowed type, or an unparsable date. -/
theorem updateMerge_invalid (req : UpdateTransactionRequest) (ex : Transaction) (w : WriteResult)
    (hbad : (∃ s, req.txType = some s ∧ (s = "" ∨ allowedTransactionTypes s = false)) ∨
            (∃ s, req.date = some s ∧ ParseDate s = none)) :
    ∃ msg, updateMerge req ex w = (Response.error 400 msg, []) := by
  rcases hD : req.date with _ | ds
  · rcases hbad with ⟨s, hs, hinv⟩ | ⟨s, hs, _⟩
    · refine ⟨"type must be one of: income, expense", ?_⟩
      rcases hinv with he | hf
      · simp [updateMerge, hD, updateMergeTail, hs, he]
      · simp [updateMerge, hD, updateMergeTail, hs, hf]
    · rw [hD] at hs
      exact Option.noConfusion hs
  · rcases hP : ParseDate ds with _ | d
    · exact ⟨"invalid date (use RFC3339)", by simp [updateMerge, hD, hP]⟩
    · rcases hbad with ⟨s, hs, hinv⟩ | ⟨s, hs, hn⟩
      · refine ⟨"type must be one of: income, expense", ?_⟩
        rcases hinv with he | hf
        · simp [updateMerge, hD, hP, updateMergeTail, hs, he]
        · simp [updateMerge, hD, hP, updateMergeTail, hs, hf]
      · rw [hD] at hs
        obtain rfl : ds = s := Option.some.inj hs
        rw [hP] at hn
        exact Option.noConfusion hn

/-- C4: a partial update whose body supplies an invalid (empty or
disallowed) type or an unparsable date answers a client error whenever
the store fetch itself does not fail, and in every case the store's
Update is never invoked, leaving the stored resource untouched. -/
theorem update_invalid_field_aborts (method path : String) (b : UpdateTransactionBody)
    (fetch : FetchResult) (write : WriteResult)
    (hbad : (∃ s, (decodeUpdateTransactionBody b).txType = some s ∧
                 (s = "" ∨ allowedTransactionTypes s = false)) ∨
            (∃ s, (decodeUpdateTransactionBody b).date = some s ∧ ParseDate s = none))
    (hfetch : fetch ≠ FetchResult.err) :
    (UpdateTransaction method path (some b) fetch write).1.isClientError = true
  ∧ ∀ t : Transaction,
      StoreCall.updateTx t ∉ (UpdateTransaction method path (some b) fetch write).2 := by
  by_cases hm : method = "PUT"
  · rcases hpair : accountIDAndTransactionIDFromPath path with ⟨accID, txID⟩
    by_cases hbp : accID = "" ∨ txID = ""
    · constructor
      · simp [UpdateTransaction, hm, hpair, hbp, isClientError_400]
      · intro t
        simp [UpdateTransaction, hm, hpair, hbp]
    · rcases fetch with _ | _ | ex
      · exact absurd rfl hfetch
      · constructor
        · simp [UpdateTransaction, hm, hpair, hbp, isClientError_404]
        · intro t
          simp [UpdateTransaction, hm, hpair, hbp]
      · obtain ⟨msg, hmsg⟩ := updateMerge_invalid (decodeUpdateTransactionBody b) ex write hbad
        constructor
        · simp [UpdateTransaction, hm, hpair, hbp, hmsg, isClientError_400]
        · intro t
          simp [UpdateTransaction, hm, hpair, hbp, hmsg]
  · constructor
    · simp [UpdateTransaction, hm, isClientError_405]
    · intro t
      simp [UpdateTransaction, hm]

/-- Witness for C4: an update body supplying only the disallowed type
"transfer", against an existing stored transaction. -/
theorem update_invalid_field_aborts_witness :
    (UpdateTransaction "PUT" "/accounts/acc-1/transactions/tx-1" (some badTypeBody)
       (FetchResult.found sampleTx) WriteResult.ok).1.isClientError = true
  ∧ StoreCall.updateTx sampleTx ∉ (UpdateTransaction "PUT" "/accounts/acc-1/transactions/tx-1"
       (some badTypeBody) (FetchResult.found sampleTx) WriteResult.ok).2 := by
  have h := update_invalid_field_aborts "PUT" "/accounts/acc-1/transactions/tx-1" badTypeBody
    (FetchResult.found sampleTx) WriteResult.ok
    (Or.inl ⟨"transfer", rfl, Or.inr (by decide)⟩) (by decide)
  exact ⟨h.1, h.2 sampleTx⟩

/-- C3, counterexample: a partial update whose body carries an invalid
enum type does cause a persistence-collaborator call — the fetch of the
existing resource happens before the type is validated. -/
theorem validation_order_counterexample :
    (UpdateTransaction "PUT" "/accounts/acc-1/transactions/tx-1" (some badTypeBody)
      (FetchResult.found sampleTx) WriteResult.ok).2 = [StoreCall.getByID "acc-1" "tx-1"]
  ∧ (UpdateTransaction "PUT" "/accounts/acc-1/transactions/tx-1" (some badTypeBody)
      (FetchResult.found sampleTx) WriteResult.ok).1
      = Response.error 400 "type must be one of: income, expense" := by
  decide

/-- C3, amended: malformed input never reaches a persistence call in
the account handlers and in transaction creation, and a body that is
not valid JSON never reaches one in the partial update either; but in
the partial update the fetch of the existing resource precedes the
validation of supplied date and type fields — those validations still
precede any persistence write, so the store's Update is never invoked
on malformed input. -/
theorem validation_before_writes_amended :
    (∀ m cr id, (CreateAccount m none cr id).2 = [])
  ∧ (∀ m (req : CreateAccountRequest) cr id,
        req.name = "" ∨ req.accType = "" ∨ allowedAccountTypes req.accType = false →
        (CreateAccount m (some req) cr id).2 = [])
  ∧ (∀ m p ur, (UpdateAccount m p none ur).2 = [])
  ∧ (∀ m p (req : CreateAccountRequest) ur,
        req.name = "" ∨ req.accType = "" ∨ allowedAccountTypes req.accType = false →
        (UpdateAccount m p (some req) ur).2 = [])
  ∧ (∀ m p cr id, (CreateTransaction m p none cr id).2 = [])
  ∧ (∀ m p (b : CreateTransactionBody) cr id,
        (decodeCreateTransactionBody b).txType = "" ∨
        allowedTransactionTypes (decodeCreateTransactionBody b).txType = false ∨
        (decodeCreateTransactionBody b).date = "" ∨
        ParseDate (decodeCreateTransactionBody b).date = none →
        (CreateTransaction m p (some b) cr id).2 = [])
  ∧ (∀ m p f w, (UpdateTransaction m p none f w).2 = [])
  ∧ (∀ m p (b : UpdateTransactionBody) f w,
        ((∃ s, (decodeUpdateTransactionBody b).txType = some s ∧
              (s = "" ∨ allowedTransactionTypes s = false)) ∨
         (∃ s, (decodeUpdateTransactionBody b).date = some s ∧ ParseDate s = none)) →
        ∀ t, StoreCall.updateTx t ∉ (UpdateTransaction m p (some b) f w).2) := by
  refine ⟨?_, ?_, ?_, ?_, ?_, ?_, ?_, ?_⟩
  · intro m cr id
    by_cases hm : m = "POST" <;> simp [CreateAccount, hm]
  · intro m req cr id h
    by_cases hm : m = "POST"
    · by_cases hn : req.name = ""
      · simp [CreateAccount, hm, hn]
      · by_cases ht : req.accType = ""
        · simp [CreateAccount, hm, hn, ht]
        · have hf : allowedAccountTypes req.accType = false := by
            rcases h with h | h | h
            · exact absurd h hn
            · exact absurd h ht
            · exact h
          simp [CreateAccount, hm, hn, ht, hf]
    · simp [CreateAccount, hm]
  · intro m p ur
    by_cases hm : m = "PUT"
    · by_cases hid : accountIDFromPath p = "" <;> simp [UpdateAccount, hm, hid]
    · simp [UpdateAccount, hm]
  · intro m p req ur h
    by_cases hm : m = "PUT"
    · by_cases hid : accountIDFromPath p = ""
      · simp [UpdateAccount, hm, hid]
      · by_cases hn : req.name = ""
        · simp [UpdateAccount, hm, hid, hn]
        · by_cases ht : req.accType = ""
          · simp [UpdateAccount, hm, hid, hn, ht]
          · have hf : allowedAccountTypes req.accType = false := by
              rcases h with h | h | h
              · exact absurd h hn
              · exact absurd h ht
              · exact h
            simp [UpdateAccount, hm, hid, hn, ht, hf]
    · simp [UpdateAccount, hm]
  · intro m p cr id
    by_cases hm : m = "POST"
    · rcases hpair : accountIDAndTransactionIDFromPath p with ⟨a2, t2⟩
      by_cases hbp : a2 = "" ∨ t2 ≠ "" <;> simp [CreateTransaction, hm, hpair, hbp]
    · simp [CreateTransaction, hm]
  · intro m p b cr id h
    by_cases hm : m = "POST"
    · rcases hpair : accountIDAndTransactionIDFromPath p with ⟨a2, t2⟩
      by_cases hbp : a2 = "" ∨ t2 ≠ ""
      · simp [CreateTransaction, hm, hpair, hbp]
      · by_cases h1 : (decodeCreateTransactionBody b).txType = ""
        · simp [CreateTransaction, hm, hpair, hbp, h1]
        · by_cases h2 : allowedTransactionTypes (decodeCreateTransactionBody b).txType = true
          · by_cases h3 : (decodeCreateTransactionBody b).date = ""
            · simp [CreateTransaction, hm, hpair, hbp, h1, h2, h3]
            · rcases h4 : ParseDate (decodeCreateTransactionBody b).date with _ | d
              · simp [CreateTransaction, hm, hpair, hbp, h1, h2, h3, h4]
              · rcases h with h | h | h | h
                · exact absurd h h1
                · exact absurd h2 (by simp [h])
                · exact absurd h h3
                · rw [h] at h4
                  exact Option.noConfusion h4
          · have h2f : allowedTransactionTypes (decodeCreateTransactionBody b).txType = false := by
              revert h2
              cases allowedTransactionTypes (decodeCreateTransactionBody b).txType <;> simp
            simp [CreateTransaction, hm, hpair, hbp, h1, h2f]
    · simp [CreateTransaction, hm]
  · intro m p f w
    by_cases hm : m = "PUT"
    · rcases hpair : accountIDAndTransactionIDFromPath p with ⟨a2, t2⟩
      by_cases hbp : a2 = "" ∨ t2 = "" <;> simp [UpdateTransaction, hm, hpair, hbp]
    · simp [UpdateTransaction, hm]
  · intro m p b f w h t
    by_cases hm : m = "PUT"
    · rcases hpair : accountIDAndTransactionIDFromPath p with ⟨a2, t2⟩
      by_cases hbp : a2 = "" ∨ t2 = ""
      · simp [UpdateTransaction, hm, hpair, hbp]
      · rcases f with _ | _ | ex
        · simp [UpdateTransaction, hm, hpair, hbp]
        · simp [UpdateTransaction, hm, hpair, hbp]
        · obtain ⟨msg, hmsg⟩ := updateMerge_invalid (decodeUpdateTransactionBody b) ex w h
          simp [UpdateTransaction, hm, hpair, hbp, hmsg]
    · simp [UpdateTransaction, hm]

/-- Witness for C3's amended statement: an invalid-type create causes
no store call, and a bad-date update causes no store write. -/
theorem validation_before_writes_amended_witness :
    (CreateTransaction "POST" "/accounts/acc-1/transactions"
       (some ⟨JsonField.given 10, JsonField.given "2025-02-25T12:00:00Z", JsonField.absent,
              JsonField.given "transfer"⟩) WriteResult.ok "t9").2 = []
  ∧ StoreCall.updateTx sampleTx ∉ (UpdateTransaction "PUT" "/accounts/acc-1/transactions/tx-1"
       (some badDateBody) (FetchResult.found sampleTx) WriteResult.ok).2 := by
  refine ⟨?_, ?_⟩
  · exact validation_before_writes_amended.2.2.2.2.2.1 "POST" "/accounts/acc-1/transactions"
      ⟨JsonField.given 10, JsonField.given "2025-02-25T12:00:00Z", JsonField.absent,
       JsonField.given "transfer"⟩ WriteResult.ok "t9" (Or.inr (Or.inl (by decide)))
  · exact validation_before_writes_amended.2.2.2.2.2.2.2 "PUT"
      "/accounts/acc-1/transactions/tx-1" badDateBody (FetchResult.found sampleTx) WriteResult.ok
      (Or.inr ⟨"not-a-date", rfl, by decide⟩) sampleTx

/-- On a body whose supplied date parses and whose supplied type is
valid, the merge step performs the write of exactly the merged
resource and returns it. -/
theorem updateMerge_valid (req : UpdateTransactionRequest) (ex : Transaction)
    (hdate : ∀ s, req.date = some s → (ParseDate s).isSome = true)
    (htype : ∀ s, req.txType = some s → s ≠ "" ∧ allowedTransactionTypes s = true) :
    updateMerge req ex WriteResult.ok =
      (Response.json 200 (ResponseBody.tx (mergedTransactionSpec req ex)),
       [StoreCall.updateTx (mergedTransactionSpec req ex)]) := by
  rcases hD : req.date with _ | ds
  · rcases hT : req.txType with _ | ty
    · rcases hA : req.amount with _ | v <;> rcases hDe : req.description with _ | de <;>
        simp [updateMerge, updateMergeTail, updateWriteStep, mergedTransactionSpec,
          hA, hD, hDe, hT]
    · obtain ⟨hne, hok⟩ := htype ty hT
      rcases hA : req.amount with _ | v <;> rcases hDe : req.description with _ | de <;>
        simp [updateMerge, updateMergeTail, updateWriteStep, mergedTransactionSpec,
          hA, hD, hDe, hT, hne, hok]
  · obtain ⟨d, hd⟩ := Option.isSome_iff_exists.mp (hdate ds hD)
    rcases hT : req.txType with _ | ty
    · rcases hA : req.amount with _ | v <;> rcases hDe : req.description with _ | de <;>
        simp [updateMerge, updateMergeTail, updateWriteStep, mergedTransactionSpec,
          hA, hD, hDe, hT, hd]
    · obtain ⟨hne, hok⟩ := htype ty hT
      rcases hA : req.amount with _ | v <;> rcases hDe : req.description with _ | de <;>
        simp [updateMerge, updateMergeTail, updateWriteStep, mergedTransactionSpec,
          hA, hD, hDe, hT, hd, hne, hok]

/-- C1: on a partial update with a valid path, a decodable body whose
supplied fields validate, an existing fetched transaction and a
successful write, the handler persists and returns exactly the merged
resource: unsupplied fields keep the fetched values, supplied fields
overwrite them, and the identifier and owning account identifier are
always those of the fetched transaction. -/
theorem update_partial_merge (method path a txid : String) (b : UpdateTransactionBody)
    (existing : Transaction)
    (hm : method = "PUT")
    (hpair : accountIDAndTransactionIDFromPath path = (a, txid))
    (ha : a ≠ "") (ht : txid ≠ "")
    (hdate : ∀ s, (decodeUpdateTransactionBody b).date = some s → (ParseDate s).isSome = true)
    (htype : ∀ s, (decodeUpdateTransactionBody b).txType = some s →
        s ≠ "" ∧ allowedTransactionTypes s = true) :
    UpdateTransaction method path (some b) (FetchResult.found existing) WriteResult.ok =
      (Response.json 200
         (ResponseBody.tx (mergedTransactionSpec (decodeUpdateTransactionBody b) existing)),
       [StoreCall.getByID a txid,
        StoreCall.updateTx (mergedTransactionSpec (decodeUpdateTransactionBody b) existing)])
  ∧ (mergedTransactionSpec (decodeUpdateTransactionBody b) existing).id = existing.id
  ∧ (mergedTransactionSpec (decodeUpdateTransactionBody b) existing).accountID
      = existing.accountID
  ∧ ((decodeUpdateTransactionBody b).amount = none →
      (mergedTransactionSpec (decodeUpdateTransactionBody b) existing).amount = existing.amount)
  ∧ (∀ v, (decodeUpdateTransactionBody b).amount = some v →
      (mergedTransactionSpec (decodeUpdateTransactionBody b) existing).amount = v)
  ∧ ((decodeUpdateTransactionBody b).date = none →
      (mergedTransactionSpec (decodeUpdateTransactionBody b) existing).date = existing.date)
  ∧ (∀ s d, (decodeUpdateTransactionBody b).date = some s → ParseDate s = some d →
      (mergedTransactionSpec (decodeUpdateTransactionBody b) existing).date = d)
  ∧ ((decodeUpdateTransactionBody b).description = none →
      (mergedTransactionSpec (decodeUpdateTransactionBody b) existing).description
        = existing.description)
  ∧ (∀ s, (decodeUpdateTransactionBody b).description = some s →
      (mergedTransactionSpec (decodeUpdateTransactionBody b) existing).description = s)
  ∧ ((decodeUpdateTransactionBody b).txType = none →
      (mergedTransactionSpec (decodeUpdateTransactionBody b) existing).txType = existing.txType)
  ∧ (∀ s, (decodeUpdateTransactionBody b).txType = some s →
      (mergedTransactionSpec (decodeUpdateTransactionBody b) existing).txType = s) := by
  subst hm
  refine ⟨?_, rfl, rfl, ?_, ?_, ?_, ?_, ?_, ?_, ?_, ?_⟩
  · simp [UpdateTransaction, hpair, ha, ht, updateMerge_valid _ _ hdate htype]
  · intro h
    simp [mergedTransactionSpec, h]
  · intro v h
    simp [mergedTransactionSpec, h]
  · intro h
    simp [mergedTransactionSpec, h]
  · intro s d hs hd
    simp [mergedTransactionSpec, hs, hd]
  · intro h
    simp [mergedTransactionSpec, h]
  · intro s h
    simp [mergedTransactionSpec, h]
  · intro h
    simp [mergedTransactionSpec, h]
  · intro s h
    simp [mergedTransactionSpec, h]

/-- Witness for C1: a body supplying only amount 75.25 against a
stored transaction; only the amount changes, and the same merged value
is both persisted and returned. -/
theorem update_partial_merge_witness :
    UpdateTransaction "PUT" "/accounts/acc-1/transactions/tx-1" (some amountOnlyBody)
      (FetchResult.found sampleTx) WriteResult.ok =
      (Response.json 200
         (ResponseBody.tx ⟨"tx-1", "acc-1", mkRat 7525 100, sampleDate, "old", "income"⟩),
       [StoreCall.getByID "acc-1" "tx-1",
        StoreCall.updateTx ⟨"tx-1", "acc-1", mkRat 7525 100, sampleDate, "old", "income"⟩]) := by
  have h := (update_partial_merge "PUT" "/accounts/acc-1/transactions/tx-1" "acc-1" "tx-1"
      amountOnlyBody sampleTx rfl (by decide) (by decide) (by decide)
      (fun s hs => nomatch hs) (fun s hs => nomatch hs)).1
  exact h.trans (by decide)

example : (ParseDate "2025-02-25T12:00:00Z").isSome = true := by decide

example : ParseDate "not-a-date" = none := by decide

example : ParseDate "" = none := by decide

example : atoi "abc" = none := by decide

example : atoi "-12" = some (-12) := by decide

example : atoi "" = none := by decide

example : goSplitN "acc-1/transactions/" '/' 3 = ["acc-1", "transactions", ""] := by decide

example : accountIDAndTransactionIDFromPath "/accounts/acc-1/transactions" = ("acc-1", "") := by decide

example : accountIDAndTransactionIDFromPath "/accounts/acc-1/transactions/tx-1" = ("acc-1", "tx-1") := by decide

example : accountIDAndTransactionIDFromPath "/accounts/acc-1/transactions/" = ("acc-1", "") := by decide

example : accountIDAndTransactionIDFromPath "/accounts/acc-1/other" = ("", "") := by decide

example : accountIDAndTransactionIDFromPath "/accounts/acc-1" = ("", "") := by decide

example : accountIDAndTransactionIDFromPath "/accounts/" = ("", "") := by decide

example : accountIDAndTransactionIDFromPath "/other/acc-1/transactions" = ("", "") := by decide

example : ParsePagination "abc" "500" = (1, 100) := by decide

example : ParsePagination "" "" = (1, 20) := by decide

example : ParsePagination "0" "0" = (1, 20) := by decide

example : pathMatches "/accounts/:id/transactions/:txId" "/accounts/a/transactions/t" = true := by decide

example : pathMatches "/accounts/:id/transactions" "/accounts/a/transactions/t" = false := by decide

example : pathMatches "/accounts/:id" "/accounts/a" = true := by decide

example : pathMatches "/accounts" "/accounts" = true := by decide

end ExpenseLedger
